import Mathlib

/-!
Verification of the tsmock repository (package tsmock, file stdin.go) against its
natural-language specification.

The development is a shallow embedding of stdin.go:

* `GoError` enumerates the error values occurring in the code
  (tserr.NilPtr, tserr.Higher, tserr.NotAvailable, the raw os.Pipe error,
  os.ErrClosed from closing an already closed *os.File, and a mid-feed
  WriteString error).
* `PState` is the state of the `MockStdin` struct together with the
  process-wide `os.Stdin` handle.  File-descriptor fields (`in`, `r`, `w`)
  are modelled as option-valued slots (none = Go nil) plus a closed flag for
  the underlying file; the pipe read end carries a generation number so that
  distinct pipes allocated by successive `Set` calls are distinguishable.
* Each method of `MockStdin` becomes a pure function on `PState`
  (`restore`, `set`, `run`, `delayOp`, `visOp`).  The background goroutine
  spawned by `Run` is modelled in two parts: `taskFinish` records its effect
  on the controller state when it exits (wg.Done, deferred w.Close, possibly
  a recorded write error), and `writeLoop`/`write` model the data path of
  `MockStdin.write` (which bytes reach the pipe and stdout) as a pure
  function of the source lines, a per-iteration cancellation observation and
  per-iteration WriteString results.
* `Step`/`Reachable` give the linearized transition system over `PState`:
  API calls are atomic, and the wg.Wait inside `Restore` (and inside the
  `Restore` that `Set` performs) is modelled by requiring all feeder tasks
  to have exited (`tasks = 0`) before those steps fire, with `taskExit`
  steps draining them.
-/

/-- Error values arising in stdin.go.  `nilPtr` is tserr.NilPtr (Set on a nil
file), `higher` is tserr.Higher (negative delay), `notAvailable` is
tserr.NotAvailable("os.Pipe") returned by Set when os.Pipe fails, `pipeErr` is
the raw error value os.Pipe returned (stored in stdin.e), `errClosed` is the
os.ErrClosed error produced by closing an already closed *os.File, and
`writeErr` stands for an error returned by stdin.w.WriteString mid-feed. -/
inductive GoError where
  | nilPtr
  | higher (actual : Int)
  | notAvailable
  | pipeErr
  | errClosed
  | writeErr
deriving DecidableEq, Repr

/-- The process-wide input handle os.Stdin: either the original terminal
stdin captured at construction, or the read end of the pipe allocated by the
`gen`-th successful `Set`. -/
inductive Handle where
  | original
  | pipeRead (gen : Nat)
deriving DecidableEq, Repr

/-- State of the `MockStdin` struct (stdin.go, lines 21-28) together with the
process-wide os.Stdin handle.  `rSlot`/`wSlot` are the pipe fields `stdin.r`
and `stdin.w` (`some g` = non-nil, pointing at the pipe of generation `g`;
`none` = Go nil); `inSlot` is the input file field `stdin.in`;
`rClosed`/`wClosed`/`inClosed` record whether the underlying files have been
closed; `e` is `stdin.e`; `d` is the delay cell `stdin.d` (time.Duration as an
integer); `v` is the visibility cell `stdin.v`; `cancel` records whether
`stdin.cancel` is non-nil; `tasks` is the sync.WaitGroup counter (number of
live feeder goroutines); `gen` counts the pipes allocated so far. -/
structure PState where
  rSlot : Option Nat
  wSlot : Option Nat
  inSlot : Option Unit
  rClosed : Bool
  wClosed : Bool
  inClosed : Bool
  osStdin : Handle
  e : Option GoError
  d : Int
  v : Bool
  cancel : Bool
  tasks : Nat
  gen : Nat
deriving DecidableEq, Repr

/-- `NewStdin` (stdin.go, lines 34-38): captures the original os.Stdin in
`o`, sets visibility to true; all other fields are Go zero values (nil file
descriptors, nil error, zero delay, nil cancel function, zero WaitGroup). -/
def initState : PState :=
  { rSlot := none, wSlot := none, inSlot := none,
    rClosed := false, wClosed := false, inClosed := false,
    osStdin := Handle.original, e := none, d := 0, v := true,
    cancel := false, tasks := 0, gen := 0 }

/-- Result of `(*os.File).Close`: closing an already closed file returns
os.ErrClosed, otherwise nil. -/
def closeRes (closed : Bool) : Option GoError :=
  if closed then some GoError.errClosed else none

/-- `MockStdin.Restore` (stdin.go, lines 41-65) after its wg.Wait has
returned: cancel() and `stdin.cancel = nil`; then `stdin.e = stdin.r.Close()`
if r non-nil, `stdin.e = stdin.w.Close()` if w non-nil, `stdin.e =
stdin.in.Close()` if in non-nil (each assignment overwriting the previous
value of `stdin.e`, so the error field ends up as the result of the last
close performed, or is left unchanged when all three slots are nil); then all
three slots are set to nil, os.Stdin is reset to the original handle, and the
final value of `stdin.e` is returned.  The wg.Wait between the cancel and the
closes is modelled in the `Step` relation by requiring `tasks = 0` before a
restore step. -/
def restore (s : PState) : PState × Option GoError :=
  let e3 : Option GoError :=
    if s.inSlot.isSome then closeRes s.inClosed
    else if s.wSlot.isSome then closeRes s.wClosed
    else if s.rSlot.isSome then closeRes s.rClosed
    else s.e
  let s5 : PState :=
    { s with cancel := false,
             rClosed := s.rSlot.isSome || s.rClosed,
             wClosed := s.wSlot.isSome || s.wClosed,
             inClosed := s.inSlot.isSome || s.inClosed,
             e := e3,
             rSlot := none, wSlot := none, inSlot := none,
             osStdin := Handle.original }
  (s5, e3)

/-- `MockStdin.Set` (stdin.go, lines 98-111).  `inp = none` models a nil
`*os.File` argument: Set returns tserr.NilPtr before touching any state.
Otherwise Set calls Restore (which waits for a running feeder; hence the
`tasks = 0` side condition on the corresponding `Step`), then
`stdin.r, stdin.w, stdin.e = os.Pipe()`.  `pipeOk` selects the os.Pipe
outcome: on success a fresh pipe generation is stored in `r` and `w` and
`stdin.e` is overwritten with nil, `stdin.in` is bound and os.Stdin is
repointed at the new read end; on failure `r` and `w` are nil, `stdin.e`
holds the os.Pipe error, Restore is called again and
tserr.NotAvailable("os.Pipe") is returned while `stdin.e` keeps the raw pipe
error. -/
def set (s : PState) (inp : Option Unit) (pipeOk : Bool) : PState × Option GoError :=
  match inp with
  | none => (s, some GoError.nilPtr)
  | some _ =>
    let s1 := (restore s).1
    if pipeOk then
      let g := s1.gen
      let s2 : PState :=
        { s1 with rSlot := some g, wSlot := some g,
                  rClosed := false, wClosed := false,
                  e := none, gen := g + 1 }
      let s3 : PState := { s2 with inSlot := some (), inClosed := false }
      let s4 : PState := { s3 with osStdin := Handle.pipeRead g }
      (s4, none)
    else
      let s2 : PState := { s1 with rSlot := none, wSlot := none, e := some GoError.pipeErr }
      ((restore s2).1, some GoError.notAvailable)

/-- `MockStdin.Run` (stdin.go, lines 113-118): derives a cancellable child
context storing its cancel function in `stdin.cancel`, increments the
WaitGroup and spawns the `write` goroutine.  Note the Go function has no
return value and performs no state check whatsoever: this embedding returns
only the new state, with no error component. -/
def run (s : PState) : PState :=
  { s with cancel := true, tasks := s.tasks + 1 }

/-- `MockStdin.Delay` (stdin.go, lines 69-78): a negative duration is
rejected with tserr.Higher without touching the stored delay; otherwise the
delay cell is set. -/
def delayOp (s : PState) (dd : Int) : PState × Option GoError :=
  if dd < 0 then (s, some (GoError.higher dd)) else ({ s with d := dd }, none)

/-- `MockStdin.Visibility` (stdin.go, lines 83-86): sets the visibility
cell. -/
def visOp (s : PState) (vv : Bool) : PState :=
  { s with v := vv }

/-- Effect on the controller state of the `write` goroutine exiting
(stdin.go, lines 120-146): `wg.Done()` runs (the task count drops), the
deferred `stdin.w.Close()` runs on every exit path (its error is discarded -
the code carries a "Todo: Add error handling" comment there), and if the
goroutine terminated because `WriteString` failed, that error was stored in
`stdin.e` (line 137); otherwise `stdin.e` is untouched. -/
def taskFinish (s : PState) (werr : Option GoError) : PState :=
  { s with tasks := s.tasks - 1, wClosed := true,
           e := match werr with | some er => some er | none => s.e }

/-- Model of a call of `MockStdin.Set` issued while a feeder goroutine is
still running: the `Restore` inside `Set` cancels the context and its
wg.Wait blocks until the feeder exits (with outcome `werr`), after which the
body of `Set` proceeds. -/
def setCallRunning (s : PState) (werr : Option GoError) (inp : Option Unit)
    (pipeOk : Bool) : PState × Option GoError :=
  set (taskFinish s werr) inp pipeOk

/- ## The feeder data path -/

/-- Observable outcome of one execution of the `write` goroutine body
(stdin.go, lines 120-146): `out` is the byte string delivered to the pipe
write end, `echoed` the byte string printed to stdout, `consumed` the number
of source lines the bufio.Scanner consumed (calls of `s.Scan()` that
returned true), `wClosed` whether the deferred close of the write end ran,
and `err` the write error recorded in `stdin.e`, if any. -/
structure WriteResult where
  out : String
  echoed : String
  consumed : Nat
  wClosed : Bool
  err : Option GoError
deriving DecidableEq, Repr

/-- The loop of `MockStdin.write` (stdin.go, lines 124-145), started at
iteration index `i`.  The backing file is modelled as the list of lines the
bufio.Scanner yields (without newlines, as `s.Text()` returns them);
`c j` tells whether the non-blocking `select` on `ctx.Done()` observes
cancellation at iteration `j`; `wr j` is the result of
`stdin.w.WriteString` at iteration `j` (a failed write is modelled as
delivering no bytes); `vv` is the visibility value read from the cell.  Each
iteration first consumes a line via `s.Scan()`, then checks cancellation and
breaks without writing if it is observed; otherwise it writes the line plus
a trailing newline, on a write error records it and returns, else echoes the
same string to stdout when visible.  The `time.Sleep(stdin.d.Get())` has no
observable effect in this model.  Every exit path runs the deferred close of
the write end, hence `wClosed` is true on every branch. -/
def writeLoop : List String → Nat → (Nat → Bool) → (Nat → Option GoError) → Bool → WriteResult
  | [], _, _, _, _ =>
    { out := "", echoed := "", consumed := 0, wClosed := true, err := none }
  | l :: rest, i, c, wr, vv =>
    if c i then
      { out := "", echoed := "", consumed := 1, wClosed := true, err := none }
    else
      match wr i with
      | some er =>
        { out := "", echoed := "", consumed := 1, wClosed := true, err := some er }
      | none =>
        let r := writeLoop rest (i + 1) c wr vv
        { out := l ++ "\n" ++ r.out,
          echoed := (if vv then l ++ "\n" else "") ++ r.echoed,
          consumed := r.consumed + 1,
          wClosed := r.wClosed,
          err := r.err }

/-- One full execution of the `write` goroutine body on a source whose lines
are `lines`. -/
def write (lines : List String) (c : Nat → Bool) (wr : Nat → Option GoError)
    (vv : Bool) : WriteResult :=
  writeLoop lines 0 c wr vv

/-- The channel content the specification describes for a completed feed:
the source lines in source order, each followed by exactly one newline. -/
def catLines (lines : List String) : String :=
  lines.foldr (fun l acc => l ++ "\n" ++ acc) ""

/- ## The linearized transition system -/

/-- One atomic step of the controller.  `setCall` and `restoreCall` carry the
side condition that no feeder goroutine is live, because both contain a
wg.Wait (Restore directly, Set via the Restore it performs on a non-nil
argument); a linearized trace drains running feeders with `taskExit` steps
first, which is exactly what the cancel-then-wait in the code produces.
`Set` with a nil argument returns before that wait, so no side condition is
needed in that case. -/
inductive Step : PState → PState → Prop where
  | setCall (s : PState) (inp : Option Unit) (pipeOk : Bool)
      (h : inp = none ∨ s.tasks = 0) : Step s (set s inp pipeOk).1
  | runCall (s : PState) : Step s (run s)
  | restoreCall (s : PState) (h : s.tasks = 0) : Step s (restore s).1
  | taskExit (s : PState) (werr : Option GoError) (h : 0 < s.tasks) :
      Step s (taskFinish s werr)
  | delayCall (s : PState) (dd : Int) : Step s (delayOp s dd).1
  | visCall (s : PState) (vv : Bool) : Step s (visOp s vv)

/-- States reachable from the freshly constructed controller by any sequence
of API calls and feeder-task exits. -/
inductive Reachable : PState → Prop where
  | init : Reachable initState
  | step {s t : PState} : Reachable s → Step s t → Reachable t

/-- The controller is configured iff its pipe read end is non-nil (the spec's
`configured` flag: true between a successful `Set` and the next `Restore`). -/
def configured (s : PState) : Bool :=
  s.rSlot.isSome

/-- The handle the specification expects os.Stdin to hold: the pipe read end
while a pipe is installed, the original handle otherwise. -/
def expectedHandle : Option Nat → Handle
  | some g => Handle.pipeRead g
  | none => Handle.original

/- ## Concrete states used in the analyses below -/

/-- The controller right after a successful `Set` followed by `Run`: one
feeder goroutine is live and the pipe of generation 0 is installed. -/
def c2running : PState :=
  run ((set initState (some ()) true).1)

/-- The controller after `Set`, `Run`, and a feeder exit caused by a failed
`WriteString`: the write error is recorded in `stdin.e` (stdin.go, line
137), the write end was closed by the defer, and the goroutine is gone. -/
def c3afterError : PState :=
  taskFinish (run ((set initState (some ()) true).1)) (some GoError.writeErr)

/-- The controller after a `Set` whose `os.Pipe()` call failed: `Set`
returned tserr.NotAvailable, all descriptor slots are nil, and the raw pipe
error stays recorded in `stdin.e`. -/
def c9pipeFail : PState :=
  (set initState (some ()) false).1

/- ## Helper lemmas about the feeder data path -/

/-- The deferred close of the pipe write end runs on every exit path of the
feeder loop. -/
theorem writeLoop_wClosed (lines : List String) (i : Nat) (c : Nat → Bool)
    (wr : Nat → Option GoError) (vv : Bool) :
    (writeLoop lines i c wr vv).wClosed = true := by
  induction lines generalizing i with
  | nil => rfl
  | cons l rest ih =>
    unfold writeLoop
    by_cases hc : c i
    · simp [hc]
    · cases hwr : wr i <;> simp [hc, hwr, ih]

/-- A feeder run that observes no cancellation and no write error delivers
each line, in source order, followed by one newline, and echoes nothing when
the visibility cell holds false. -/
theorem writeLoop_complete (lines : List String) (i : Nat) :
    (writeLoop lines i (fun _ => false) (fun _ => none) false).out = catLines lines ∧
    (writeLoop lines i (fun _ => false) (fun _ => none) false).echoed = "" := by
  induction lines generalizing i with
  | nil => exact ⟨rfl, rfl⟩
  | cons l rest ih =>
    refine ⟨?_, ?_⟩
    · show l ++ "\n" ++ (writeLoop rest (i + 1) (fun _ => false) (fun _ => none) false).out
        = l ++ "\n" ++ catLines rest
      rw [(ih (i + 1)).1]
    · show ("" : String) ++ (writeLoop rest (i + 1) (fun _ => false) (fun _ => none) false).echoed
        = ""
      rw [(ih (i + 1)).2]
      rfl

/-- With the visibility cell holding true and no cancellation or write error,
the bytes echoed to stdout equal the bytes delivered to the pipe. -/
theorem writeLoop_echo_visible (lines : List String) (i : Nat) :
    (writeLoop lines i (fun _ => false) (fun _ => none) true).echoed
      = (writeLoop lines i (fun _ => false) (fun _ => none) true).out := by
  induction lines generalizing i with
  | nil => rfl
  | cons l rest ih =>
    show l ++ "\n" ++ (writeLoop rest (i + 1) (fun _ => false) (fun _ => none) true).echoed
      = l ++ "\n" ++ (writeLoop rest (i + 1) (fun _ => false) (fun _ => none) true).out
    rw [ih (i + 1)]

/- ## Helper lemmas about the transition system -/

/-- Every step preserves the handle invariant: os.Stdin is the installed
pipe's read end while a pipe is installed, and the original handle
otherwise. -/
theorem step_preserves_handle {s t : PState} (hst : Step s t)
    (ih : s.osStdin = expectedHandle s.rSlot) :
    t.osStdin = expectedHandle t.rSlot := by
  cases hst with
  | setCall inp pipeOk h =>
    cases inp with
    | none => exact ih
    | some u => cases pipeOk <;> rfl
  | runCall => exact ih
  | restoreCall h => rfl
  | taskExit werr h => exact ih
  | delayCall dd =>
    by_cases hdd : dd < 0
    · simpa [delayOp, hdd] using ih
    · simpa [delayOp, hdd] using ih
  | visCall vv => exact ih

/-- Every step preserves non-negativity of the stored delay: only
`MockStdin.Delay` writes the delay cell, and it rejects negative values. -/
theorem step_preserves_delay_nonneg {s t : PState} (hst : Step s t)
    (ih : 0 ≤ s.d) : 0 ≤ t.d := by
  cases hst with
  | setCall inp pipeOk h =>
    cases inp with
    | none => exact ih
    | some u => cases pipeOk <;> exact ih
  | runCall => exact ih
  | restoreCall h => exact ih
  | taskExit werr h => exact ih
  | delayCall dd =>
    by_cases hdd : dd < 0
    · simpa [delayOp, hdd] using ih
    · simpa [delayOp, hdd] using not_lt.mp hdd
  | visCall vv => exact ih

/- ## Claim theorems -/

/-- C4: for every source line sequence, a completed feed (no cancellation,
no write error) delivers to the pipe exactly the concatenation of the lines
in source order, each followed by one newline, and with visibility=false
echoes nothing to stdout; in particular the source `["a","b","c"]` with
visibility=false and delay=0 yields exactly `"a\n"+"b\n"+"c\n"` on the pipe
and nothing on stdout. -/
theorem mock_stdin_feed_concats_lines :
    (∀ lines : List String,
      (write lines (fun _ => false) (fun _ => none) false).out = catLines lines ∧
      (write lines (fun _ => false) (fun _ => none) false).echoed = "") ∧
    (write ["a", "b", "c"] (fun _ => false) (fun _ => none) false).out
      = "a\n" ++ "b\n" ++ "c\n" ∧
    (write ["a", "b", "c"] (fun _ => false) (fun _ => none) false).echoed = "" :=
  ⟨fun lines => writeLoop_complete lines 0, by decide, by decide⟩

/-- C10: a freshly constructed controller (`NewStdin`, hence the global
`Stdin` instance) starts with visibility true, delay zero, no recorded
error, nil channel and source descriptors, no cancel function, no live
feeder, and os.Stdin still the captured original handle; and with the
default visibility (true) every line a feed writes to the pipe is also
echoed to stdout. -/
theorem new_stdin_defaults_and_echo :
    initState.v = true ∧ initState.d = 0 ∧ initState.e = none ∧
    initState.rSlot = none ∧ initState.wSlot = none ∧ initState.inSlot = none ∧
    initState.cancel = false ∧ initState.tasks = 0 ∧
    initState.osStdin = Handle.original ∧
    ∀ lines : List String,
      (write lines (fun _ => false) (fun _ => none) true).echoed
        = (write lines (fun _ => false) (fun _ => none) true).out :=
  ⟨rfl, rfl, rfl, rfl, rfl, rfl, rfl, rfl, rfl, fun lines => writeLoop_echo_visible lines 0⟩

/-- C6 counterexample: with cancellation already signalled before the feed
starts and a one-line source, the feeder still consumes that line from the
source (stdin.go line 125: `s.Scan()` runs before the cancellation check of
lines 126-131) even though it writes nothing, refuting the claim that the
iteration stops "without consuming or writing that line". -/
theorem cancelled_line_still_consumed :
    (write ["a"] (fun _ => true) (fun _ => none) false).out = "" ∧
    (write ["a"] (fun _ => true) (fun _ => none) false).consumed = 1 ∧
    ¬(write ["a"] (fun _ => true) (fun _ => none) false).consumed = 0 := by
  decide

/-- C6 amended: at each line boundary the cancellation handle is checked
non-blockingly after the next line has been read from the source; if
cancellation is already signalled the iteration stops without writing or
echoing that line (though the line has been consumed), so nothing more is
written to the pipe; and on every exit path of the feeder (cancellation,
source exhaustion, write error) the deferred close of the pipe write end
runs. -/
theorem write_cancel_checked_each_line (lines : List String) (i : Nat)
    (c : Nat → Bool) (wr : Nat → Option GoError) (vv : Bool) :
    (writeLoop lines i c wr vv).wClosed = true ∧
    (c i = true →
      (writeLoop lines i c wr vv).out = "" ∧
      (writeLoop lines i c wr vv).echoed = "" ∧
      (writeLoop lines i c wr vv).consumed ≤ 1) := by
  refine ⟨writeLoop_wClosed lines i c wr vv, fun hc => ?_⟩
  cases lines with
  | nil => exact ⟨rfl, rfl, Nat.zero_le 1⟩
  | cons l rest => simp [writeLoop, hc]

/-- C6 witness: the amended statement applied to a one-line source with
cancellation signalled from the start. -/
theorem write_cancel_checked_witness :
    (writeLoop ["x"] 0 (fun _ => true) (fun _ => none) true).wClosed = true ∧
    (writeLoop ["x"] 0 (fun _ => true) (fun _ => none) true).out = "" ∧
    (writeLoop ["x"] 0 (fun _ => true) (fun _ => none) true).echoed = "" ∧
    (writeLoop ["x"] 0 (fun _ => true) (fun _ => none) true).consumed ≤ 1 := by
  have h := write_cancel_checked_each_line ["x"] 0 (fun _ => true) (fun _ => none) true
  exact ⟨h.1, (h.2 rfl).1, (h.2 rfl).2.1, (h.2 rfl).2.2⟩

/-- C8: `Set` with a nil file pointer fails with tserr.NilPtr in every
controller state and mutates nothing at all -- the returned state is the
input state, so the configured channel, source reference, recorded error and
process-wide handle are untouched (stdin.go, lines 99-101: the nil check
returns before any assignment). -/
theorem set_nil_always_rejected (s : PState) (pipeOk : Bool) :
    set s none pipeOk = (s, some GoError.nilPtr) :=
  rfl

/-- C5: in every state reachable by any sequence of Set, Run, Restore,
Delay and Visibility calls (including both failure branches of Set and
feeder-task exits), the process-wide os.Stdin handle equals the installed
pipe's read end exactly while the controller is configured, and equals the
original handle captured at construction otherwise. -/
theorem stdin_handle_tracks_configured (s : PState) (h : Reachable s) :
    s.osStdin = expectedHandle s.rSlot ∧
    (configured s = false ↔ s.osStdin = Handle.original) := by
  have hinv : s.osStdin = expectedHandle s.rSlot := by
    induction h with
    | init => rfl
    | step hr hst ih => exact step_preserves_handle hst ih
  refine ⟨hinv, ?_⟩
  cases hs : s.rSlot with
  | none =>
    rw [hs] at hinv
    simp [configured, hs, hinv, expectedHandle]
  | some g =>
    rw [hs] at hinv
    simp [configured, hs, hinv, expectedHandle]

/-- C5 witness: the invariant applied to the state reached by a single
successful `Set` from the fresh controller. -/
theorem stdin_handle_tracks_configured_witness :
    (set initState (some ()) true).1.osStdin
      = expectedHandle (set initState (some ()) true).1.rSlot ∧
    (configured (set initState (some ()) true).1 = false ↔
      (set initState (some ()) true).1.osStdin = Handle.original) :=
  stdin_handle_tracks_configured ((set initState (some ()) true).1)
    (Reachable.step Reachable.init
      (Step.setCall initState (some ()) true (Or.inr rfl)))

/-- C7: `Delay d` with a non-negative duration succeeds (returns nil) and
stores `d`; with a negative duration it fails with tserr.Higher and returns
the state unchanged, so in particular the previously stored delay survives;
consequently the stored delay is non-negative in every reachable state. -/
theorem delay_rejects_negative_keeps_nonneg :
    (∀ (s : PState) (dd : Int), 0 ≤ dd → delayOp s dd = ({ s with d := dd }, none)) ∧
    (∀ (s : PState) (dd : Int), dd < 0 →
      delayOp s dd = (s, some (GoError.higher dd))) ∧
    (∀ s : PState, Reachable s → 0 ≤ s.d) := by
  refine ⟨?_, ?_, ?_⟩
  · intro s dd hdd
    unfold delayOp
    rw [if_neg (by omega : ¬dd < 0)]
  · intro s dd hdd
    unfold delayOp
    rw [if_pos hdd]
  · intro s h
    induction h with
    | init => decide
    | step hr hst ih => exact step_preserves_delay_nonneg hst ih

/-- C7 witness: the three parts applied at concrete inputs (delay 5,
delay -1 as in TestNegativeDelay, and the initial state). -/
theorem delay_rejects_negative_witness :
    delayOp initState 5 = ({ initState with d := 5 }, none) ∧
    delayOp initState (-1) = (initState, some (GoError.higher (-1))) ∧
    0 ≤ initState.d :=
  ⟨delay_rejects_negative_keeps_nonneg.1 initState 5 (by decide),
   delay_rejects_negative_keeps_nonneg.2.1 initState (-1) (by decide),
   delay_rejects_negative_keeps_nonneg.2.2 initState Reachable.init⟩

/-- C1 (code-bug evidence): `MockStdin.Run` in stdin.go (lines 113-118) has
no error result and performs no state check at all -- in the embedding `run`
returns only a `PState` -- so on the fresh, never-configured controller it
spawns a feeder goroutine and records no error instead of failing with a
NotConfigured error, and a second `Run` before the first feed finished
spawns a second goroutine instead of failing with AlreadyRunning.  The
repository's own tests (TestStdinRunWithoutSet, TestStdinRunAgain in
stdin_test.go) require both calls to return a non-nil error. -/
theorem run_spawns_unconditionally :
    initState.rSlot = none ∧ initState.inSlot = none ∧
    (run initState).tasks = 1 ∧ (run initState).e = none ∧
    (run (run ((set initState (some ()) true).1))).tasks = 2 ∧
    (run (run ((set initState (some ()) true).1))).e = none := by
  decide

/-- C2 (code-bug evidence): with a feed running (one live goroutine on the
generation-0 pipe), a `Set` with a non-nil source does not fail with an
AlreadyRunning error: it force-restores the running feed (its internal
Restore cancels the context and waits for the feeder) and then installs a
fresh generation-1 pipe, returning nil.  The running feed and the channel,
source and process-wide handle are all replaced, contrary to the claim and
to the repository's own test TestStdinSet, which requires a non-nil
error. -/
theorem set_while_running_force_restores :
    c2running.tasks = 1 ∧ c2running.rSlot = some 0 ∧ c2running.cancel = true ∧
    (setCallRunning c2running none (some ()) true).2 = none ∧
    (setCallRunning c2running none (some ()) true).1.rSlot = some 1 ∧
    (setCallRunning c2running none (some ()) true).1.osStdin = Handle.pipeRead 1 := by
  decide

/-- C3 counterexample: after a feed in which the feeder recorded a
WriteString error in `stdin.e` and exited, `Restore` returns nil and leaves
`Err()` returning nil -- the write error is overwritten by the descriptor
closes inside Restore (stdin.go lines 48-58 assign each close result to
`stdin.e`), refuting the claim that the mid-feed write error is still
observable via `Err()` (or as Restore's return value) immediately after
`Restore()`. -/
theorem restore_drops_write_error :
    c3afterError.e = some GoError.writeErr ∧
    c3afterError.tasks = 0 ∧
    (restore c3afterError).2 = none ∧
    (restore c3afterError).1.e = none := by
  decide

/-- C3 amended: Restore still drains the feeder before reporting (modelled
by the `tasks = 0` precondition of its step), and its return value always
agrees with what `Err()` reports immediately afterwards; but that value is
the result of the last descriptor close Restore performed -- the input
file's close result whenever a source is installed -- and the previously
recorded error survives only when there was nothing to close. -/
theorem restore_returns_last_close_result (s : PState) :
    (restore s).2 = (restore s).1.e ∧
    (s.inSlot.isSome = true → (restore s).1.e = closeRes s.inClosed) ∧
    (s.inSlot = none → s.wSlot = none → s.rSlot = none → (restore s).1.e = s.e) := by
  refine ⟨rfl, ?_, ?_⟩
  · intro h
    simp [restore, h]
  · intro h1 h2 h3
    simp [restore, h1, h2, h3]

/-- C3 witness: the amended statement applied to the configured
post-`Set` state and to the fresh state. -/
theorem restore_returns_last_close_witness :
    (restore (set initState (some ()) true).1).2
      = (restore (set initState (some ()) true).1).1.e ∧
    (restore (set initState (some ()) true).1).1.e
      = closeRes (set initState (some ()) true).1.inClosed ∧
    (restore initState).1.e = initState.e :=
  ⟨(restore_returns_last_close_result ((set initState (some ()) true).1)).1,
   (restore_returns_last_close_result ((set initState (some ()) true).1)).2.1 rfl,
   (restore_returns_last_close_result initState).2.2 rfl rfl rfl⟩

/-- C9 counterexample: after a `Set` whose os.Pipe allocation failed, the
raw pipe error stays recorded in `stdin.e`; a first `Restore` finds all
descriptor slots nil, closes nothing, and returns that recorded error -- and
so does a second consecutive `Restore`, refuting the claim that the second
Restore "returns no error" (it does tolerate the absent descriptors and
changes no state). -/
theorem second_restore_keeps_recorded_error :
    c9pipeFail.rSlot = none ∧ c9pipeFail.wSlot = none ∧ c9pipeFail.inSlot = none ∧
    (restore c9pipeFail).2 = some GoError.pipeErr ∧
    (restore (restore c9pipeFail).1).2 = some GoError.pipeErr ∧
    (restore (restore c9pipeFail).1).1 = (restore c9pipeFail).1 := by
  decide

/-- C9 amended: `Restore` on the never-configured fresh controller is a
no-op returning nil and leaving os.Stdin at the original handle; and Restore
is idempotent: a second consecutive Restore finds every descriptor slot
already nil, changes no state, and returns the error value left recorded by
the first Restore -- which is nil except when a pipe-allocation failure had
left an error recorded. -/
theorem restore_noop_and_idempotent :
    restore initState = (initState, none) ∧
    ∀ s : PState, restore (restore s).1 = ((restore s).1, (restore s).1.e) :=
  ⟨rfl, fun _ => rfl⟩
